import Mathlib

/-!
Shallow embedding of the task-execution core of `hyperscale-mcp`
(`hyperscale_mcp/tasks/run.py`, `hyperscale_mcp/tasks/task_runner.py`)
together with theorems checking the natural-language specification
against it.

Machine timing (monotonic clocks, elapsed floats) is abstracted away;
the embedding keeps the status, error, trace and result fields and the
discrete control flow of the source, with event-loop outcomes (what the
awaited work did: returned, raised, exceeded its deadline) passed in as
explicit parameters.
-/

namespace HyperscaleMCP

/-- Modelled from the spec: the run-status enumeration of `models.py`
(`models.py` is not in the source tree); the spec's data model lists the
six statuses CREATED, PENDING, RUNNING, COMPLETE, FAILED, CANCELLED. -/
inductive RunStatus
  | CREATED
  | PENDING
  | RUNNING
  | COMPLETE
  | FAILED
  | CANCELLED
deriving DecidableEq, Repr

/-- The mutable per-invocation state of `Run` (`run.py`), restricted to the
fields the claims are about.  `hasProcess` models whether `self._process`
holds a process handle and `hasTask` whether `self._task` holds a task
handle (Python truthiness of those slots). -/
structure Run where
  run_id : Nat
  status : RunStatus
  error : Option String
  trace : Option String
  result : Option String
  timeout : Option Nat
  hasProcess : Bool
  hasTask : Bool
deriving DecidableEq, Repr

/-- A fresh `Run` as produced by `Run.__init__`. -/
def initRun (runId : Nat) (timeout : Option Nat) : Run :=
  { run_id := runId
    status := RunStatus.CREATED
    error := none
    trace := none
    result := none
    timeout := timeout
    hasProcess := false
    hasTask := false }

/-- Python rendering of `self.timeout` inside an f-string: a number prints
its digits, `None` prints as the text None. -/
def pyShowTimeout : Option Nat → String
  | some n => toString n
  | none => "None"

/-- Python truthiness of the `timeout` field (`if self.timeout:`):
`None` and `0` are falsy. -/
def timeoutTruthy : Option Nat → Bool
  | some n => n != 0
  | none => false

/-- The timeout error text built in `_execute` / `_execute_shell`:
Err. - Task Run - id - timed out. Exceeded deadline of - t - seconds. -/
def timeoutMessage (runId : Nat) (timeout : Option Nat) : String :=
  "Err. - Task Run - " ++ toString runId ++
    " - timed out. Exceeded deadline of - " ++ pyShowTimeout timeout ++
    " - seconds."

/-- The failure error text built in `_execute` / `_execute_shell`:
Err. - Task Run - id - failed. Encountered exception - msg. -/
def failureMessage (runId : Nat) (msg : String) : String :=
  "Err. - Task Run - " ++ toString runId ++
    " - failed. Encountered exception - " ++ msg ++ "."

/-- Predicate `Run.running` (`run.py` line 95): equality test on status. -/
def Run.running (r : Run) : Bool := r.status == RunStatus.RUNNING

/-- Predicate `Run.cancelled`: equality test on status. -/
def Run.cancelled (r : Run) : Bool := r.status == RunStatus.CANCELLED

/-- Predicate `Run.failed`: equality test on status. -/
def Run.failed (r : Run) : Bool := r.status == RunStatus.FAILED

/-- Predicate `Run.pending`: equality test on status. -/
def Run.pending (r : Run) : Bool := r.status == RunStatus.PENDING

/-- Predicate `Run.completed`: equality test on status. -/
def Run.completed (r : Run) : Bool := r.status == RunStatus.COMPLETE

/-- Predicate `Run.created`: equality test on status. -/
def Run.created (r : Run) : Bool := r.status == RunStatus.CREATED

/-- The snapshot the tail of `_execute_shell` works on.  On the normal path
it is the `ShellProcess` built by `get_run_update` (stderr text in `error`,
drained stdout in `result`); on the timeout path it is the `ShellProcess`
built in the `except asyncio.TimeoutError` handler, whose `result` field is
never set.  Modelled from the spec: `ShellProcess` lives in the missing
`models.py`; per the spec's snapshot shape and scenarios its `result` field
carries the captured stdout as bytes, so that the tail's `decode` recovers
the text — `some s` stands for bytes decoding to `s`, `none` for an absent
field (on which `.decode()` raises and is swallowed). -/
structure ShellUpdate where
  error : String
  result : Option String
deriving DecidableEq, Repr

/-- The tail of `_execute_shell` (`run.py` lines 377-398): record the
update's error text, then decide FAILED/COMPLETE from `self.return_code`
(`None` compares unequal to `0` in Python), then try to decode the
update's result into `self.result`, swallowing any exception. -/
def execShellTail (r : Run) (update : ShellUpdate) (returnCode : Option Int) :
    Run :=
  let errorMessage := update.error
  let r1 := { r with error := some errorMessage }
  let r2 :=
    if returnCode ≠ some 0 then
      { r1 with
        error := some (failureMessage r1.run_id errorMessage)
        status := RunStatus.FAILED }
    else
      { r1 with status := RunStatus.COMPLETE }
  match update.result with
  | some s => { r2 with result := some s }
  | none => r2

/-- What the spawned subprocess did, as observed by the polling loop:
either it exited (with its drained stdout, drained stderr and exit code),
or the overall `asyncio.wait_for` timeout elapsed first while it was
still running. -/
inductive ShellOutcome
  | finished (stdoutText : String) (stderrText : String) (returnCode : Int)
  | timedOut
deriving DecidableEq, Repr

/-- `_execute_shell` (`run.py` lines 302-398) after process creation: set
status RUNNING, await the polling loop (or hit the overall timeout, which
sets FAILED and builds a timeout-error update with no result and a still
unset return code), then run the unconditional tail. -/
def execute_shell (r : Run) (outcome : ShellOutcome) : Run :=
  let r0 := { r with hasProcess := true, status := RunStatus.RUNNING }
  match outcome with
  | ShellOutcome.finished stdoutText stderrText returnCode =>
      execShellTail r0
        { error := stderrText, result := some stdoutText } (some returnCode)
  | ShellOutcome.timedOut =>
      let msg := timeoutMessage r0.run_id r0.timeout
      let r1 := { r0 with status := RunStatus.FAILED }
      execShellTail r1 { error := msg, result := none } none

/-- What the callable handed to `_execute` did when the event loop awaited
it: it returned a value within any configured deadline, it raised an
exception, or it ran past the configured deadline (and would eventually
return a value). -/
inductive CallOutcome
  | ok (v : String)
  | raises (msg : String)
  | slow (v : String)
deriving DecidableEq, Repr

/-- Message of the `TypeError` raised because the pool-bound timeout branch
of `_execute` (`run.py` line 435) calls `asyncio.wait_for` without its
required `timeout` argument (Python quotes the argument name; the quotes
are elided here). -/
def waitForTypeErrorMsg : String :=
  "wait_for() missing 1 required positional argument: timeout"

/-- Stand-in for `traceback.format_exc()` text recorded on exceptions. -/
def pyTracebackText : String := "Traceback (most recent call last): ..."

/-- `_execute` (`run.py` lines 414-475), returning the post-state and the
number of semaphore slots still held when it finishes (acquired and not
released).  Branches follow the source: a coroutine call is awaited
directly (with `asyncio.wait_for` when a truthy timeout is set); a
pool-bound call first acquires a semaphore slot and submits to the
executor — in the timeout branch `asyncio.wait_for` is invoked without its
required `timeout` argument, so a `TypeError` is raised after submission
and the `except Exception` handler runs; the `release` call sits on the
success path only, so any exception (including the timeout path) skips
it. -/
def execute (isCoro : Bool) (outcome : CallOutcome) (r : Run) : Run × Nat :=
  let r0 := { r with status := RunStatus.RUNNING }
  if timeoutTruthy r0.timeout && isCoro then
    match outcome with
    | CallOutcome.ok v =>
        ({ r0 with result := some v, status := RunStatus.COMPLETE }, 0)
    | CallOutcome.slow _ =>
        ({ r0 with
            error := some (timeoutMessage r0.run_id r0.timeout)
            status := RunStatus.FAILED }, 0)
    | CallOutcome.raises msg =>
        ({ r0 with
            error := some (failureMessage r0.run_id msg)
            trace := some pyTracebackText
            status := RunStatus.FAILED }, 0)
  else if isCoro then
    match outcome with
    | CallOutcome.ok v =>
        ({ r0 with result := some v, status := RunStatus.COMPLETE }, 0)
    | CallOutcome.slow v =>
        ({ r0 with result := some v, status := RunStatus.COMPLETE }, 0)
    | CallOutcome.raises msg =>
        ({ r0 with
            error := some (failureMessage r0.run_id msg)
            trace := some pyTracebackText
            status := RunStatus.FAILED }, 0)
  else if timeoutTruthy r0.timeout then
    ({ r0 with
        error := some (failureMessage r0.run_id waitForTypeErrorMsg)
        trace := some pyTracebackText
        status := RunStatus.FAILED }, 1)
  else
    match outcome with
    | CallOutcome.ok v =>
        ({ r0 with result := some v, status := RunStatus.COMPLETE }, 0)
    | CallOutcome.slow v =>
        ({ r0 with result := some v, status := RunStatus.COMPLETE }, 0)
    | CallOutcome.raises msg =>
        ({ r0 with
            error := some (failureMessage r0.run_id msg)
            trace := some pyTracebackText
            status := RunStatus.FAILED }, 1)

/-- External effects `cancel` / `abort` can cause beyond the `Run`'s own
fields. -/
inductive SideAction
  | terminate
  | kill
deriving DecidableEq, Repr

/-- A Python `try: ... except Exception: pass` around a fallible primitive
that would emit the given side actions: on success the actions happen, on
failure nothing escapes. -/
def pyTryPass (act : Except String (List SideAction)) : List SideAction :=
  match act with
  | Except.ok a => a
  | Except.error _ => []

/-- `psutil.Process(pid).terminate()`: may raise (process gone, access
denied); on success it sends the terminate signal. -/
def psutilTerminate (fails : Bool) : Except String (List SideAction) :=
  if fails then Except.error "psutil raised" else Except.ok [SideAction.terminate]

/-- `self._process.kill()`: raises `ProcessLookupError` when the process
has already exited; on success it sends the kill signal. -/
def processKill (procGone : Bool) : Except String (List SideAction) :=
  if procGone then Except.error "ProcessLookupError"
  else Except.ok [SideAction.kill]

/-- `self._task.set_result(None)`: always raises — `AttributeError` when
`self._task` is `None`, `RuntimeError` on an `asyncio.Task` (which does
not support `set_result`). -/
def taskSetResult (hasTask : Bool) : Except String (List SideAction) :=
  if hasTask then Except.error "Task does not support set_result operation"
  else Except.error "NoneType object has no attribute set_result"

/-- `Run.cancel` (`run.py` lines 245-261): try to terminate the process
when a handle exists (exception swallowed), try `set_result` on the task
handle (exception swallowed), then set status CANCELLED unconditionally.
The `Except` result makes the absence of escaping exceptions explicit. -/
def Run.cancel (termFails : Bool) (r : Run) :
    Except String (Run × List SideAction) :=
  let acts1 := if r.hasProcess then pyTryPass (psutilTerminate termFails) else []
  let acts2 := acts1 ++ pyTryPass (taskSetResult r.hasTask)
  Except.ok ({ r with status := RunStatus.CANCELLED }, acts2)

/-- `Run.abort` (`run.py` lines 263-273): kill the process when a handle
exists — this call is NOT wrapped in a try, so its exception escapes —
then try `set_result` (exception swallowed) and set status CANCELLED. -/
def Run.abort (procGone : Bool) (r : Run) :
    Except String (Run × List SideAction) := do
  let acts1 ← if r.hasProcess then processKill procGone else pure []
  let acts2 := acts1 ++ pyTryPass (taskSetResult r.hasTask)
  pure ({ r with status := RunStatus.CANCELLED }, acts2)

/-- What one registered Task's `cleanup()` coroutine does on a sweep. -/
inductive CleanupBehavior
  | ok
  | raises
deriving DecidableEq, Repr

/-- The `for` loop inside the single `try` of `_cleanup_scheduled_tasks`
(`task_runner.py` lines 298-304): tasks are cleaned in registration order;
the first raising `cleanup` aborts the loop, leaving every later task
untouched.  Returns which tasks had their cleanup invoked (in order) and
the exception escaping the loop, if any. -/
def cleanupLoop : List CleanupBehavior → List Bool × Option String
  | [] => ([], none)
  | CleanupBehavior.ok :: rest =>
      let (l, e) := cleanupLoop rest
      (true :: l, e)
  | CleanupBehavior.raises :: rest =>
      (true :: rest.map (fun _ => false), some "cleanup raised")

/-- `_cleanup_scheduled_tasks`: the whole loop sits inside one
`try: ... except Exception: pass`, so the escaping exception is swallowed
at sweep level and only the invocation record remains. -/
def cleanupScheduledTasks (bs : List CleanupBehavior) : List Bool :=
  (cleanupLoop bs).1

/-- The `repeat` setting of a Task: the literal NEVER or ALWAYS, or an
explicit integer count. -/
inductive RepeatSetting
  | NEVER
  | ALWAYS
  | count (n : Nat)
deriving DecidableEq, Repr

/-- The configuration arguments a `TaskRunner.run` / `TaskRunner.command`
call supplies for (possible) Task creation. -/
structure TaskConfig where
  schedule : Option String
  trigger : String
  repeat_ : RepeatSetting
  keep : Option Nat
  max_age : Option String
  keep_policy : String
deriving DecidableEq, Repr

/-- Modelled from the spec: `Task` (`task_hook.py` is not in the source
tree) carries its configuration, fixed at construction, plus the
insertion-ordered run ids it has created; `Task.run` / `Task.run_shell`
create and dispatch one new Run from the supplied invocation arguments and
per-call timeout, leaving the configuration untouched, and
`Task.run_schedule` / `Task.run_shell_schedule` arm the recurring loop
(runs are created later by that loop). -/
structure Task where
  config : TaskConfig
  shellTask : Bool
  runs : List Nat
deriving DecidableEq, Repr

/-- Modelled from the spec: one-shot dispatch appends a fresh run id. -/
def Task.dispatchRun (t : Task) (runId : Nat) : Task :=
  { t with runs := t.runs ++ [runId] }

/-- What a `TaskRunner.run` / `TaskRunner.command` call handed back:
a one-shot dispatched Run, an armed schedule, or nothing (the implicit
`return None` when neither branch applies). -/
inductive DispatchKind
  | oneShot (runId : Nat)
  | scheduled
deriving DecidableEq, Repr

/-- The registry state of `TaskRunner`: the name-keyed Task map, in
insertion order. -/
structure RunnerState where
  tasks : List (String × Task)
deriving DecidableEq, Repr

/-- Association lookup over the insertion-ordered Task map. -/
def lookupTask : List (String × Task) → String → Option Task
  | [], _ => none
  | p :: ps, name => if p.1 == name then some p.2 else lookupTask ps name

/-- `self.tasks.get(name)`. -/
def RunnerState.getTask (st : RunnerState) (name : String) : Option Task :=
  lookupTask st.tasks name

/-- Store an updated Task under an existing name
(`self.tasks[name] = task` on a key already present). -/
def setTask : List (String × Task) → String → Task → List (String × Task)
  | [], _, _ => []
  | p :: ps, name, t =>
      if p.1 == name then (p.1, t) :: setTask ps name t
      else p :: setTask ps name t

/-- Python truthiness of `task.schedule` (`elif task and task.schedule:`):
`None` and the empty string are falsy. -/
def scheduleTruthy : Option String → Bool
  | some s => s != ""
  | none => false

/-- The registration step shared by `TaskRunner.run` and
`TaskRunner.command` (`task_runner.py` lines 95-112 and 163-180): reuse
the Task stored under the name if present, otherwise construct one from
this call's configuration and insert it.  Returns the (possibly extended)
state and the effective Task. -/
def registerTask (st : RunnerState) (name : String) (cfg : TaskConfig)
    (shellTask : Bool) : RunnerState × Task :=
  match st.getTask name with
  | some t => (st, t)
  | none =>
      let t : Task := { config := cfg, shellTask := shellTask, runs := [] }
      ({ tasks := st.tasks ++ [(name, t)] }, t)

/-- The dispatch tail shared by `TaskRunner.run` (lines 117-131) and
`TaskRunner.command` (lines 182-201): `if task.repeat == "NEVER"`
dispatch one Run; `elif task.schedule` (truthiness) arm the schedule;
otherwise fall through and return `None`. -/
def dispatchTask (st : RunnerState) (name : String) (task : Task)
    (runId : Nat) : RunnerState × Option DispatchKind :=
  if task.config.repeat_ = RepeatSetting.NEVER then
    ({ tasks := setTask st.tasks name (task.dispatchRun runId) },
      some (DispatchKind.oneShot runId))
  else if scheduleTruthy task.config.schedule then
    (st, some DispatchKind.scheduled)
  else
    (st, none)

/-- `TaskRunner.run` (`task_runner.py` lines 77-131): register-or-reuse the
Task named after the callable, then dispatch.  The per-call `timeout` and
invocation arguments only flow into the dispatched Run, not into the
Task's stored configuration, so they are not part of the registry
state. -/
def runnerRun (st : RunnerState) (callName : String) (cfg : TaskConfig)
    (runId : Nat) : RunnerState × Option DispatchKind :=
  let (st1, task) := registerTask st callName cfg false
  dispatchTask st1 callName task runId

/-- `TaskRunner.command` (`task_runner.py` lines 133-201): the Task name is
the alias when given, else the command string; registration marks the Task
as a shell task; dispatch is the same branch structure as `run`. -/
def runnerCommand (st : RunnerState) (command : String)
    (aliasName : Option String) (cfg : TaskConfig) (runId : Nat) :
    RunnerState × Option DispatchKind :=
  let commandName := aliasName.getD command
  let (st1, task) := registerTask st commandName cfg true
  dispatchTask st1 commandName task runId

/-- The signal numbers iterated by `TaskRunner.__init__`
(`task_runner.py` line 53): `signal.SIGINT` (2), `signal.SIGTERM` (15)
and `signal.SIG_IGN` — the latter is a handler constant of numeric value
1, not a signal, so the loop registers for signal number 1. -/
def registeredSignals : List Nat := [2, 15, 1]

/-- The two locals of the `__init__` registration loop that every lambda
closes over: the loop variable `sig` and the per-iteration
`default_handler`.  Handlers are identified by numbers via the ambient
`origH : Nat → Nat` map from signal number to its original handler. -/
structure HandlerEnv where
  sigVar : Nat
  defaultHandlerVar : Nat
deriving DecidableEq, Repr

/-- The environment after the registration loop finishes: each iteration
rebinds the two shared locals, so every registered lambda observes the
values of the final iteration (Python late binding). -/
def finalHandlerEnv (origH : Nat → Nat) : HandlerEnv :=
  registeredSignals.foldl
    (fun _ s => { sigVar := s, defaultHandlerVar := origH s })
    { sigVar := 0, defaultHandlerVar := 0 }

/-- Observable effects of a signal handler invocation. -/
inductive SigAction
  | shutdownPool
  | restoreHandler (sig : Nat) (handler : Nat)
  | redeliver (sig : Nat)
deriving DecidableEq, Repr

/-- `shutdown_executor` (`task_runner.py` lines 25-31): shut the worker
pool down, then `signal.signal(sig, default_handler)`; nothing re-raises
or re-delivers any signal. -/
def shutdown_executor (sig : Nat) (defaultHandler : Nat) : List SigAction :=
  [SigAction.shutdownPool, SigAction.restoreHandler sig defaultHandler]

/-- Invoking the handler registered for `arrivedSig`: every registration
installed the same lambda, which reads the shared loop locals at call
time, so the arriving signal number plays no role in what runs. -/
def invokeRegisteredHandler (origH : Nat → Nat) (_arrivedSig : Nat) :
    List SigAction :=
  let env := finalHandlerEnv origH
  shutdown_executor env.sigVar env.defaultHandlerVar

/-- A concrete one-shot Task configuration (the defaults of
`TaskRunner.run`). -/
def sampleConfig : TaskConfig :=
  { schedule := none
    trigger := "MANUAL"
    repeat_ := RepeatSetting.NEVER
    keep := none
    max_age := none
    keep_policy := "COUNT" }

/-- A concrete configuration differing from `sampleConfig` in every
field. -/
def sampleConfig2 : TaskConfig :=
  { schedule := some "1s"
    trigger := "ON_START"
    repeat_ := RepeatSetting.ALWAYS
    keep := some 5
    max_age := some "1m"
    keep_policy := "AGE" }

/-- A concrete repeating-but-unscheduled configuration. -/
def sampleConfigAlways : TaskConfig :=
  { sampleConfig with repeat_ := RepeatSetting.ALWAYS }

/-- A concrete registered Task. -/
def sampleTask : Task :=
  { config := sampleConfig, shellTask := false, runs := [] }

/-- A registry holding `sampleTask` under the name work. -/
def sampleRegistry : RunnerState := { tasks := [("work", sampleTask)] }

/-- The empty registry. -/
def emptyRegistry : RunnerState := { tasks := [] }

/-! ## Theorems -/

/-- C1: for a subprocess run driven by `_execute_shell`, exit code 0 yields
final status COMPLETE with the captured stdout text as the run's result,
and a non-zero exit code yields final status FAILED with the
stderr-derived failure context in the run's error field. -/
theorem execute_shell_exit_code_determines_outcome
    (r : Run) (stdoutText stderrText : String) (rc : Int) :
    (rc = 0 →
      (execute_shell r (ShellOutcome.finished stdoutText stderrText rc)).status
          = RunStatus.COMPLETE ∧
      (execute_shell r (ShellOutcome.finished stdoutText stderrText rc)).result
          = some stdoutText) ∧
    (rc ≠ 0 →
      (execute_shell r (ShellOutcome.finished stdoutText stderrText rc)).status
          = RunStatus.FAILED ∧
      (execute_shell r (ShellOutcome.finished stdoutText stderrText rc)).error
          = some (failureMessage r.run_id stderrText)) := by
  constructor
  · intro h
    subst h
    simp [execute_shell, execShellTail]
  · intro h
    have hne : (some rc : Option Int) ≠ some 0 := by
      simpa using h
    simp [execute_shell, execShellTail, hne]

/-- Witness for C1 at the spec's scenarios: `echo hi` (exit 0, stdout
"hi\n") completes with result "hi\n", and a run exiting 1 fails. -/
theorem execute_shell_exit_code_determines_outcome_witness :
    ((0 : Int) = 0 →
      (execute_shell (initRun 1 none) (ShellOutcome.finished "hi\n" "" 0)).status
          = RunStatus.COMPLETE ∧
      (execute_shell (initRun 1 none) (ShellOutcome.finished "hi\n" "" 0)).result
          = some "hi\n") ∧
    ((1 : Int) ≠ 0 →
      (execute_shell (initRun 2 none) (ShellOutcome.finished "" "boom" 1)).status
          = RunStatus.FAILED ∧
      (execute_shell (initRun 2 none) (ShellOutcome.finished "" "boom" 1)).error
          = some (failureMessage 2 "boom")) :=
  ⟨fun h => (execute_shell_exit_code_determines_outcome
      (initRun 1 none) "hi\n" "" 0).1 h,
   fun h => (execute_shell_exit_code_determines_outcome
      (initRun 2 none) "" "boom" 1).2 h⟩

/-- C10: the six status predicates are each an equality test against the
single status field, so at any point exactly one of them is true. -/
theorem run_status_predicates_mutually_exclusive (r : Run) :
    ([r.created, r.pending, r.running, r.completed, r.failed,
        r.cancelled].count true) = 1 := by
  rcases r with ⟨runId, st, e, tr, res, tmo, hp, ht⟩
  cases st <;> rfl

/-- Counterexample to C2 as stated: a pool-bound (non-coroutine, untimed)
execution whose callable raises finishes with one semaphore slot still
held — the held count does not return to its pre-call value. -/
theorem execute_pool_raise_leaks_semaphore_slot :
    (execute false (CallOutcome.raises "boom") (initRun 3 none)).2 = 1 ∧
    (1 : Nat) ≠ 0 := by
  constructor
  · rfl
  · decide

/-- C2 (amended): a pool-bound `_execute` acquires one slot before
submitting to the executor, but releases it only when the awaited pool
work returns normally; if the callable raises — or a timeout is
configured, in which case the branch itself raises a `TypeError` after
submission — the `except` handler finishes the run without releasing, so
the held-slot count stays one above its pre-call value. -/
theorem execute_pool_semaphore_release_only_on_success
    (r : Run) (v msg : String) (t : Nat) (o : CallOutcome) (ht : t ≠ 0) :
    (execute false (CallOutcome.ok v) { r with timeout := none }).2 = 0 ∧
    (execute false (CallOutcome.slow v) { r with timeout := none }).2 = 0 ∧
    (execute false (CallOutcome.raises msg) { r with timeout := none }).2 = 1 ∧
    (execute false o { r with timeout := some t }).2 = 1 := by
  refine ⟨?_, ?_, ?_, ?_⟩ <;>
    simp [execute, timeoutTruthy, ht]

/-- Witness for C2's amended theorem at concrete inputs. -/
theorem execute_pool_semaphore_release_only_on_success_witness :
    (execute false (CallOutcome.ok "v") { initRun 1 none with timeout := none }).2 = 0 ∧
    (execute false (CallOutcome.slow "v") { initRun 1 none with timeout := none }).2 = 0 ∧
    (execute false (CallOutcome.raises "m") { initRun 1 none with timeout := none }).2 = 1 ∧
    (execute false (CallOutcome.slow "v") { initRun 1 none with timeout := some 1 }).2 = 1 :=
  execute_pool_semaphore_release_only_on_success
    (initRun 1 none) "v" "m" 1 (CallOutcome.slow "v") (by decide)

/-- C3 at the failing input: with a timeout set, the coroutine branch of
`_execute` ends a too-slow run FAILED with the timeout-specific message,
but the pool-bound branch ends it FAILED with the generic
exception-failure message built from the `TypeError` of calling
`asyncio.wait_for` without its required timeout argument — a different
message, and not the timeout-specific one. -/
theorem execute_pool_timeout_branch_lacks_timeout_message :
    (execute false (CallOutcome.slow "done") (initRun 1 (some 1))).1.status
        = RunStatus.FAILED ∧
    (execute false (CallOutcome.slow "done") (initRun 1 (some 1))).1.error
        = some (failureMessage 1 waitForTypeErrorMsg) ∧
    (execute true (CallOutcome.slow "done") (initRun 1 (some 1))).1.status
        = RunStatus.FAILED ∧
    (execute true (CallOutcome.slow "done") (initRun 1 (some 1))).1.error
        = some (timeoutMessage 1 (some 1)) ∧
    failureMessage 1 waitForTypeErrorMsg ≠ timeoutMessage 1 (some 1) := by
  refine ⟨rfl, rfl, rfl, rfl, ?_⟩
  decide

/-- Counterexample to C4 as stated: `cancel` on a Run already in the
terminal status COMPLETE changes its status to CANCELLED, so a terminal
Run does transition. -/
theorem cancel_on_complete_run_changes_terminal_status :
    Run.cancel false { initRun 7 none with status := RunStatus.COMPLETE }
        = Except.ok
            ({ initRun 7 none with status := RunStatus.CANCELLED },
              ([] : List SideAction)) ∧
    RunStatus.CANCELLED ≠ RunStatus.COMPLETE := by
  exact ⟨rfl, by decide⟩

/-- C4 (amended): terminal statuses are not sticky — no status write in
`Run` guards on the current status: `cancel` and `abort` set CANCELLED
unconditionally (even on a COMPLETE or FAILED Run), and the tail of
`_execute_shell` sets COMPLETE (exit code 0) or FAILED (otherwise)
unconditionally (even on a CANCELLED Run). -/
theorem status_writes_ignore_terminal_state
    (termFails procGone : Bool) (r : Run) (update : ShellUpdate)
    (rc : Option Int) (out : Run × List SideAction) :
    (Run.cancel termFails r = Except.ok out →
        out.1.status = RunStatus.CANCELLED) ∧
    (Run.abort procGone r = Except.ok out →
        out.1.status = RunStatus.CANCELLED) ∧
    (execShellTail r update (some 0)).status = RunStatus.COMPLETE ∧
    (rc ≠ some 0 → (execShellTail r update rc).status = RunStatus.FAILED) := by
  refine ⟨?_, ?_, ?_, ?_⟩
  · intro h
    simp only [Run.cancel, Except.ok.injEq] at h
    rw [← h]
  · intro h
    cases hp : r.hasProcess <;> cases hg : procGone <;>
      simp only [Run.abort, hp, hg, processKill, bind, Except.bind,
        Except.ok.injEq, reduceIte, cond_false, cond_true,
        Bool.false_eq_true, if_false, if_true] at h <;>
      cases h <;> rfl
  · simp only [execShellTail]
    cases update.result <;> simp
  · intro h
    simp only [execShellTail, if_neg, h, if_pos, ne_eq, not_false_iff]
    cases hres : update.result <;> simp [h]

/-- Witness for C4's amended theorem at a concrete Run. -/
theorem status_writes_ignore_terminal_state_witness :
    (({ initRun 9 none with status := RunStatus.CANCELLED },
        ([] : List SideAction)).1.status = RunStatus.CANCELLED) ∧
    (execShellTail (initRun 9 none)
        { error := "", result := some "ok" } (some 0)).status
          = RunStatus.COMPLETE ∧
    (execShellTail (initRun 9 none)
        { error := "", result := some "ok" } (some 1)).status
          = RunStatus.FAILED := by
  have h := status_writes_ignore_terminal_state false false (initRun 9 none)
    { error := "", result := some "ok" } (some 1)
    ({ initRun 9 none with status := RunStatus.CANCELLED },
      ([] : List SideAction))
  exact ⟨h.1 rfl, h.2.2.1, h.2.2.2 (by decide)⟩

/-- C6: `cancel` never raises (every fallible primitive inside it is
wrapped in try/except), a second `cancel` on an already-CANCELLED Run
leaves the Run's state unchanged, and with no process handle and no task
handle both `cancel` and `abort` do nothing beyond setting status
CANCELLED (no external side actions, no exception). -/
theorem cancel_abort_idempotent_and_silent
    (termFails procGone : Bool) (r : Run) :
    Run.cancel termFails r
        = Except.ok ({ r with status := RunStatus.CANCELLED },
            if r.hasProcess then pyTryPass (psutilTerminate termFails)
            else []) ∧
    (r.status = RunStatus.CANCELLED →
      Run.cancel termFails r
        = Except.ok (r,
            if r.hasProcess then pyTryPass (psutilTerminate termFails)
            else [])) ∧
    (r.hasProcess = false → r.hasTask = false →
      Run.cancel termFails r
          = Except.ok ({ r with status := RunStatus.CANCELLED },
              ([] : List SideAction)) ∧
      Run.abort procGone r
          = Except.ok ({ r with status := RunStatus.CANCELLED },
              ([] : List SideAction))) := by
  refine ⟨?_, ?_, ?_⟩
  · cases ht : r.hasTask <;>
      simp [Run.cancel, pyTryPass, taskSetResult, ht]
  · intro hs
    cases ht : r.hasTask <;>
      simp [Run.cancel, pyTryPass, taskSetResult, ht] <;>
      (cases r; simp_all)
  · intro hp hnt
    constructor
    · simp [Run.cancel, pyTryPass, taskSetResult, hp, hnt]
    · simp [Run.abort, pyTryPass, taskSetResult, hp, hnt, bind, Except.bind,
        pure, Except.pure]

/-- Witness for C6 at a concrete already-CANCELLED Run with no process
handle and no task handle. -/
theorem cancel_abort_idempotent_and_silent_witness :
    Run.cancel false { initRun 5 none with status := RunStatus.CANCELLED }
        = Except.ok ({ initRun 5 none with status := RunStatus.CANCELLED },
            ([] : List SideAction)) ∧
    Run.abort false { initRun 5 none with status := RunStatus.CANCELLED }
        = Except.ok ({ initRun 5 none with status := RunStatus.CANCELLED },
            ([] : List SideAction)) := by
  have h := cancel_abort_idempotent_and_silent false false
    { initRun 5 none with status := RunStatus.CANCELLED }
  have h3 := h.2.2 rfl rfl
  exact ⟨h.2.1 rfl, h3.2⟩

/-- Mapping every element to `false` yields a replicate of `false`. -/
lemma map_to_false {α : Type} (l : List α) :
    l.map (fun _ => false) = List.replicate l.length false := by
  induction l with
  | nil => rfl
  | cons a as ih => simp [List.replicate, ih]

/-- A prefix of non-raising cleanups is fully invoked and passes control
on to the rest of the sweep. -/
lemma cleanupLoop_ok_append (pre l : List CleanupBehavior)
    (hpre : ∀ b ∈ pre, b = CleanupBehavior.ok) :
    cleanupLoop (pre ++ l)
      = (List.replicate pre.length true ++ (cleanupLoop l).1,
          (cleanupLoop l).2) := by
  induction pre with
  | nil => simp [cleanupLoop]
  | cons b bs ih =>
      have hb : b = CleanupBehavior.ok := hpre b (List.mem_cons_self b bs)
      subst hb
      have ihh := ih (fun x hx => hpre x (List.mem_cons_of_mem _ hx))
      simp [cleanupLoop, ihh, List.replicate]

/-- Counterexample to C5 as stated: in a sweep over [raising task, good
task], the second task's cleanup is not invoked — one raising Task does
prevent the cleanup of the Tasks after it in the same sweep. -/
theorem cleanup_sweep_skips_later_tasks_after_raise :
    cleanupScheduledTasks [CleanupBehavior.raises, CleanupBehavior.ok]
        = [true, false] ∧
    ([true, false] : List Bool) ≠ [true, true] := by
  exact ⟨rfl, by decide⟩

/-- C5 (amended): the try/except wraps the whole sweep loop, so the first
raising cleanup ends that sweep without letting the exception escape (the
cleanup loop itself keeps running): every Task before and including the
raising one is invoked, the Tasks after it are skipped for that sweep; a
sweep with no raising Task invokes every Task's cleanup. -/
theorem cleanup_sweep_stops_at_first_raise_without_crashing
    (pre post bs : List CleanupBehavior)
    (hpre : ∀ b ∈ pre, b = CleanupBehavior.ok)
    (hbs : ∀ b ∈ bs, b = CleanupBehavior.ok) :
    cleanupScheduledTasks (pre ++ CleanupBehavior.raises :: post)
        = List.replicate pre.length true ++
            true :: List.replicate post.length false ∧
    cleanupScheduledTasks bs = List.replicate bs.length true := by
  constructor
  · unfold cleanupScheduledTasks
    rw [cleanupLoop_ok_append pre _ hpre]
    simp [cleanupLoop, map_to_false]
  · have h := cleanupLoop_ok_append bs [] hbs
    rw [List.append_nil] at h
    unfold cleanupScheduledTasks
    rw [h]
    simp [cleanupLoop]

/-- Witness for C5's amended theorem on a concrete sweep. -/
theorem cleanup_sweep_stops_at_first_raise_without_crashing_witness :
    cleanupScheduledTasks
        ([CleanupBehavior.ok] ++ CleanupBehavior.raises :: [CleanupBehavior.ok])
        = List.replicate 1 true ++ true :: List.replicate 1 false ∧
    cleanupScheduledTasks [CleanupBehavior.ok, CleanupBehavior.ok]
        = List.replicate 2 true := by
  have h := cleanup_sweep_stops_at_first_raise_without_crashing
    [CleanupBehavior.ok] [CleanupBehavior.ok]
    [CleanupBehavior.ok, CleanupBehavior.ok]
    (by intro b hb; simpa using hb)
    (by
      intro b hb
      rcases List.mem_cons.mp hb with h1 | h2
      · exact h1
      · simpa using h2)
  exact h

/-- `setTask` keeps the key column of the Task map unchanged. -/
lemma setTask_map_fst (ts : List (String × Task)) (name : String)
    (t : Task) : (setTask ts name t).map Prod.fst = ts.map Prod.fst := by
  induction ts with
  | nil => rfl
  | cons p ps ih =>
      by_cases hp : (p.1 == name) = true <;> simp [setTask, hp, ih]

/-- Looking up a present name after `setTask` returns the stored Task. -/
lemma getTask_setTask (ts : List (String × Task)) (name : String)
    (t2 : Task)
    (h : ({ tasks := ts } : RunnerState).getTask name ≠ none) :
    ({ tasks := setTask ts name t2 } : RunnerState).getTask name
      = some t2 := by
  induction ts with
  | nil => simp [RunnerState.getTask, lookupTask] at h
  | cons p ps ih =>
      by_cases hp : (p.1 == name) = true
      · simp [RunnerState.getTask, setTask, lookupTask, hp]
      · simp [RunnerState.getTask, setTask, lookupTask, hp] at h ih ⊢
        exact ih h

/-- Shared core for C7: when the name is already registered, the
register-then-dispatch pipeline keeps the stored Task's configuration and
the key column of the Task map. -/
lemma dispatch_preserves_existing (st : RunnerState) (name : String)
    (cfg2 : TaskConfig) (shellTask : Bool) (runId2 : Nat) (t : Task)
    (ht : st.getTask name = some t) :
    ((dispatchTask (registerTask st name cfg2 shellTask).1 name
        (registerTask st name cfg2 shellTask).2 runId2).1.getTask name).map
          Task.config = some t.config ∧
    (dispatchTask (registerTask st name cfg2 shellTask).1 name
        (registerTask st name cfg2 shellTask).2 runId2).1.tasks.map
          Prod.fst = st.tasks.map Prod.fst := by
  have hreg : registerTask st name cfg2 shellTask = (st, t) := by
    simp [registerTask, ht]
  rw [hreg]
  by_cases hrep : t.config.repeat_ = RepeatSetting.NEVER
  · have hg : ({ tasks := setTask st.tasks name (t.dispatchRun runId2) } :
        RunnerState).getTask name = some (t.dispatchRun runId2) := by
      apply getTask_setTask
      cases hst : st
      rw [hst] at ht
      simp [ht]
    have hd : dispatchTask st name t runId2
        = ({ tasks := setTask st.tasks name (t.dispatchRun runId2) },
            some (DispatchKind.oneShot runId2)) := by
      simp [dispatchTask, hrep]
    rw [hd]
    refine ⟨?_, setTask_map_fst st.tasks name (t.dispatchRun runId2)⟩
    rw [hg]
    rfl
  · by_cases hsch : scheduleTruthy t.config.schedule = true <;>
      simp [dispatchTask, hrep, hsch, ht]

/-- C7: a second `TaskRunner.run` call under the same callable name, or a
second `TaskRunner.command` call under the same alias/command name,
reuses the stored Task: no new Task is created (the registry's key column
is unchanged) and the stored Task's schedule/trigger/repeat/keep/max_age/
keep_policy configuration is unchanged, whatever configuration the second
call supplies. -/
theorem second_call_reuses_task_preserving_config
    (st : RunnerState) (callName command : String)
    (aliasName : Option String) (cfg2 : TaskConfig) (runId2 : Nat)
    (t : Task) :
    (st.getTask callName = some t →
      ((runnerRun st callName cfg2 runId2).1.getTask callName).map
          Task.config = some t.config ∧
      (runnerRun st callName cfg2 runId2).1.tasks.map Prod.fst
          = st.tasks.map Prod.fst) ∧
    (st.getTask (aliasName.getD command) = some t →
      ((runnerCommand st command aliasName cfg2 runId2).1.getTask
          (aliasName.getD command)).map Task.config = some t.config ∧
      (runnerCommand st command aliasName cfg2 runId2).1.tasks.map
          Prod.fst = st.tasks.map Prod.fst) := by
  constructor
  · intro ht
    have h := dispatch_preserves_existing st callName cfg2 false runId2 t ht
    simpa [runnerRun] using h
  · intro ht
    have h := dispatch_preserves_existing st (aliasName.getD command) cfg2
      true runId2 t ht
    simpa [runnerCommand] using h

/-- Witness for C7: re-running the registered name work with a fully
different configuration leaves the stored configuration and the registry
keys unchanged, under both `run` and `command`. -/
theorem second_call_reuses_task_preserving_config_witness :
    (((runnerRun sampleRegistry "work" sampleConfig2 9).1.getTask
        "work").map Task.config = some sampleConfig ∧
      (runnerRun sampleRegistry "work" sampleConfig2 9).1.tasks.map
          Prod.fst = sampleRegistry.tasks.map Prod.fst) ∧
    (((runnerCommand sampleRegistry "work" none sampleConfig2 9).1.getTask
        "work").map Task.config = some sampleConfig ∧
      (runnerCommand sampleRegistry "work" none sampleConfig2 9).1.tasks.map
          Prod.fst = sampleRegistry.tasks.map Prod.fst) := by
  have h := second_call_reuses_task_preserving_config sampleRegistry
    "work" "work" none sampleConfig2 9 sampleTask
  exact ⟨h.1 rfl, h.2 rfl⟩

/-- C9: when the effective Task (freshly created or reused) has a repeat
setting other than NEVER and no schedule, neither dispatch branch of
`TaskRunner.run` / `TaskRunner.command` applies: no Run is created or
dispatched, the registry is left exactly as registration left it, and the
call returns the implicit None. -/
theorem repeating_unscheduled_call_returns_none
    (st : RunnerState) (callName command : String)
    (aliasName : Option String) (cfg : TaskConfig) (runId : Nat) :
    ((registerTask st callName cfg false).2.config.repeat_
          ≠ RepeatSetting.NEVER →
      (registerTask st callName cfg false).2.config.schedule = none →
      runnerRun st callName cfg runId
        = ((registerTask st callName cfg false).1, none)) ∧
    ((registerTask st (aliasName.getD command) cfg true).2.config.repeat_
          ≠ RepeatSetting.NEVER →
      (registerTask st (aliasName.getD command) cfg true).2.config.schedule
          = none →
      runnerCommand st command aliasName cfg runId
        = ((registerTask st (aliasName.getD command) cfg true).1, none)) := by
  constructor
  · intro h1 h2
    rcases hE : registerTask st callName cfg false with ⟨st1, task⟩
    rw [hE] at h1 h2
    have h2x : task.config.schedule = none := h2
    have h1x : task.config.repeat_ ≠ RepeatSetting.NEVER := h1
    simp only [runnerRun, hE]
    simp [dispatchTask, h1x, h2x, scheduleTruthy]
  · intro h1 h2
    rcases hE : registerTask st (aliasName.getD command) cfg true
      with ⟨st1, task⟩
    rw [hE] at h1 h2
    have h2x : task.config.schedule = none := h2
    have h1x : task.config.repeat_ ≠ RepeatSetting.NEVER := h1
    simp only [runnerCommand, hE]
    simp [dispatchTask, h1x, h2x, scheduleTruthy]

/-- Witness for C9: a fresh repeat-ALWAYS, schedule-less Task is
registered but nothing is dispatched and None comes back. -/
theorem repeating_unscheduled_call_returns_none_witness :
    runnerRun emptyRegistry "job" sampleConfigAlways 3
        = ((registerTask emptyRegistry "job" sampleConfigAlways false).1,
            none) ∧
    runnerCommand emptyRegistry "job" none sampleConfigAlways 3
        = ((registerTask emptyRegistry "job" sampleConfigAlways true).1,
            none) := by
  have h := repeating_unscheduled_call_returns_none emptyRegistry "job"
    "job" none sampleConfigAlways 3
  exact ⟨h.1 (by decide) rfl, h.2 (by decide) rfl⟩

/-- Counterexample to C8 as stated: with original handlers
`fun n => n + 100`, the handler invoked when SIGINT (signal 2) arrives
shuts the pool down but then restores handler 101 for signal 1 — it does
not restore SIGINT's own original handler 102, and it re-delivers
nothing. -/
theorem sigint_handler_restores_wrong_signal_no_redelivery :
    invokeRegisteredHandler (fun n => n + 100) 2
        = [SigAction.shutdownPool, SigAction.restoreHandler 1 101] ∧
    SigAction.restoreHandler 2 102 ∉
        invokeRegisteredHandler (fun n => n + 100) 2 ∧
    SigAction.redeliver 2 ∉ invokeRegisteredHandler (fun n => n + 100) 2 := by
  refine ⟨rfl, ?_, ?_⟩ <;> decide

/-- C8 (amended): all registrations install the same closure over the
loop's shared sig/default_handler locals (late binding), so whichever
registered signal arrives, the invoked handler shuts down the pool and
restores the original handler of the loop's final value — signal number
1, the numeric value of `signal.SIG_IGN` — rather than the arriving
signal's own handler, and the signal is never re-delivered. -/
theorem registered_signal_handlers_late_bound
    (origH : Nat → Nat) (arrivedSig sg : Nat) :
    invokeRegisteredHandler origH arrivedSig
        = [SigAction.shutdownPool, SigAction.restoreHandler 1 (origH 1)] ∧
    SigAction.redeliver sg ∉ invokeRegisteredHandler origH arrivedSig := by
  constructor
  · rfl
  · simp [invokeRegisteredHandler, finalHandlerEnv, registeredSignals,
      shutdown_executor]

end HyperscaleMCP
